import Mathlib

/-!
Shallow embedding of the measurement core of `sci_viz_tool.py`
(the Point Registry and the Metrics Engine, lines 100-165 and 526-645).

Conventions of the embedding:
* Python `float` values are modelled as exact rationals (`ℚ`).  Every number
  the engine manipulates is produced from integer pixel coordinates and the
  calibration value by field operations, so the mathematical values are
  rationals; `ℚ` has no infinities and no NaN.
* Python `None` is modelled as `Option.none`.
* A raised exception escaping `compute_metrics` (the only possible one is
  `ZeroDivisionError` inside `base_norm`, which has no zero guard in the
  source) is modelled as `Except.error ()`.
-/

/-- The five point names of the registry (`self.points` keys, line 158). -/
inductive PName where
  | Baseline
  | Control
  | A
  | B
  | Axis
deriving DecidableEq

/-- The point registry: an optional integer image-space coordinate for each
of the five names (`Point.xy`, lines 100-124 and 157-164). -/
structure Registry where
  baseline : Option (Int × Int)
  control : Option (Int × Int)
  a : Option (Int × Int)
  b : Option (Int × Int)
  axis : Option (Int × Int)
deriving DecidableEq

/-- Read one point's coordinate (`self.points[name].xy`). -/
def Registry.get (r : Registry) : PName → Option (Int × Int)
  | .Baseline => r.baseline
  | .Control => r.control
  | .A => r.a
  | .B => r.b
  | .Axis => r.axis

/-- Record a coordinate for one named point
(`self.points[self.current_mode].xy = img_xy`, line 473). -/
def Registry.setP (r : Registry) (p : PName) (xy : Int × Int) : Registry :=
  match p with
  | .Baseline => { r with baseline := some xy }
  | .Control => { r with control := some xy }
  | .A => { r with a := some xy }
  | .B => { r with b := some xy }
  | .Axis => { r with axis := some xy }

/-- The registry-boundary error taxonomy: referencing a name outside the
fixed set of five. -/
inductive RegError where
  | invalidName
deriving DecidableEq

/-- Recognise the five valid point names, as the guard
`self.current_mode not in ("Baseline", "Control", "A", "B", "Axis")`
(line 470) and the keys of the `self.points` dict (lines 158-164) do. -/
def parsePName (s : String) : Option PName :=
  if s = "Baseline" then some .Baseline
  else if s = "Control" then some .Control
  else if s = "A" then some .A
  else if s = "B" then some .B
  else if s = "Axis" then some .Axis
  else none

/-- Modelled from the spec: the source has no standalone registry `set`
function, only the behaviour it induces.  A valid name updates exactly that
point (`self.points[self.current_mode].xy = img_xy`, line 473); any other
name is rejected with no point touched: `on_canvas_click` (line 470)
refuses unknown modes, and a direct `self.points[name]` access would fail
on a missing dict key (`KeyError`) before any mutation — the spec's
`InvalidNameError` names that rejection. -/
def Registry.set (r : Registry) (name : String) (xy : Int × Int) :
    Except RegError Registry :=
  match parsePName name with
  | some p => .ok (r.setP p xy)
  | none => .error .invalidName

/-- `clear_marks` (lines 526-538): forget every point's coordinate
(`pt.xy = None` for all five points). -/
def clear_marks (_r : Registry) : Registry :=
  { baseline := none, control := none, a := none, b := none, axis := none }

/-- The `height` helper inside `compute_metrics` (lines 566-574):
`float(base_y - y_top)` when both Baseline and the point exist, else `None`. -/
def heightOf (r : Registry) (p : PName) : Option ℚ :=
  match r.baseline, r.get p with
  | some bl, some pt => some ((bl.2 - pt.2 : Int) : ℚ)
  | _, _ => none

/-- Axis span (lines 576-583): `float(base_y - axis_y)` when both Baseline
and Axis exist, with an exactly-zero span treated as missing. -/
def axisSpan (r : Registry) : Option ℚ :=
  match r.baseline, r.axis with
  | some bl, some ax =>
      if ((bl.2 - ax.2 : Int) : ℚ) = 0 then none
      else some ((bl.2 - ax.2 : Int) : ℚ)
  | _, _ => none

/-- The candidate heights for the auto-scale fallback, in the source's
order `(hA, hB, hC)` with the `None` entries dropped (line 589). -/
def autoCandidates (r : Registry) : List ℚ :=
  [heightOf r .A, heightOf r .B, heightOf r .Control].filterMap id

/-- `max(abs(v) for v in candidates)` when candidates exist, else `1.0`
(lines 588-595). -/
def autoScaleValue (r : Registry) : ℚ :=
  match (autoCandidates r).map (fun x => |x|) with
  | [] => 1
  | v :: vs => vs.foldl max v

/-- The scale divisor `hAxis` after the fallback (lines 576-595), paired
with the `auto_used` flag. -/
def chosenScale (r : Registry) : ℚ × Bool :=
  match axisSpan r with
  | some s => (s, false)
  | none => (autoScaleValue r, true)

/-- The `pct` helper (lines 597-604): `100.0 * n / d`, `None` when either
argument is missing or the divisor is zero.  It never fails. -/
def pct (n d : Option ℚ) : Option ℚ :=
  match n, d with
  | some n0, some d0 => if d0 = 0 then none else some (100 * n0 / d0)
  | _, _ => none

/-- The delta numerators `None if hX is None or hY is None else hX - hY`
(lines 624-637). -/
def diffOpt (x y : Option ℚ) : Option ℚ :=
  match x, y with
  | some x0, some y0 => some (x0 - y0)
  | _, _ => none

/-- The `base_norm` helper (lines 606-610): `(v_height / hAxis) *
float(self.axis_value)`.  Unlike `pct` it has no zero guard, so a zero
`hAxis` with a present height raises `ZeroDivisionError`, modelled as
`Except.error ()`.  (`hAxis` is never `None` at this point in the source:
the fallback at lines 585-595 always assigns it a float.) -/
def base_norm (hAxis : ℚ) (axis_value : ℚ) (v_height : Option ℚ) :
    Except Unit (Option ℚ) :=
  match v_height with
  | none => .ok none
  | some h => if hAxis = 0 then .error () else .ok (some (h / hAxis * axis_value))

/-- The result mapping built by `compute_metrics` (lines 612-644), one field
per dict key.  `axis_auto_used` is the boolean flag stored in the dict. -/
structure Metrics where
  height_Baseline_y : Option ℚ
  height_Control_px : Option ℚ
  height_A_px : Option ℚ
  height_B_px : Option ℚ
  height_Axis_px : Option ℚ
  axis_auto_used : Bool
  A_as_pct_of_B : Option ℚ
  B_as_pct_of_A : Option ℚ
  delta_A_vs_B_pct : Option ℚ
  delta_B_vs_A_pct : Option ℚ
  A_as_pct_of_Control : Option ℚ
  Control_as_pct_of_A : Option ℚ
  delta_A_vs_Control_pct : Option ℚ
  delta_Control_vs_A_pct : Option ℚ
  B_as_pct_of_Control : Option ℚ
  Control_as_pct_of_B : Option ℚ
  delta_B_vs_Control_pct : Option ℚ
  delta_Control_vs_B_pct : Option ℚ
  BaseNorm_Control : Option ℚ
  BaseNorm_A : Option ℚ
  BaseNorm_B : Option ℚ
  Axis_Value : Option ℚ
deriving DecidableEq, Inhabited

/-- The successful result record of `compute_metrics`, given the three
`base_norm` outcomes (the dict literal at lines 612-644). -/
def metricsOf (r : Registry) (axis_value : ℚ) (bnC bnA bnB : Option ℚ) :
    Metrics :=
  { height_Baseline_y := r.baseline.map (fun p => ((p.2 : Int) : ℚ))
    height_Control_px := heightOf r .Control
    height_A_px := heightOf r .A
    height_B_px := heightOf r .B
    height_Axis_px := some (chosenScale r).1
    axis_auto_used := (chosenScale r).2
    A_as_pct_of_B := pct (heightOf r .A) (heightOf r .B)
    B_as_pct_of_A := pct (heightOf r .B) (heightOf r .A)
    delta_A_vs_B_pct := pct (diffOpt (heightOf r .A) (heightOf r .B)) (heightOf r .B)
    delta_B_vs_A_pct := pct (diffOpt (heightOf r .B) (heightOf r .A)) (heightOf r .A)
    A_as_pct_of_Control := pct (heightOf r .A) (heightOf r .Control)
    Control_as_pct_of_A := pct (heightOf r .Control) (heightOf r .A)
    delta_A_vs_Control_pct := pct (diffOpt (heightOf r .A) (heightOf r .Control)) (heightOf r .Control)
    delta_Control_vs_A_pct := pct (diffOpt (heightOf r .Control) (heightOf r .A)) (heightOf r .A)
    B_as_pct_of_Control := pct (heightOf r .B) (heightOf r .Control)
    Control_as_pct_of_B := pct (heightOf r .Control) (heightOf r .B)
    delta_B_vs_Control_pct := pct (diffOpt (heightOf r .B) (heightOf r .Control)) (heightOf r .Control)
    delta_Control_vs_B_pct := pct (diffOpt (heightOf r .Control) (heightOf r .B)) (heightOf r .B)
    BaseNorm_Control := bnC
    BaseNorm_A := bnA
    BaseNorm_B := bnB
    Axis_Value := some axis_value }

/-- `compute_metrics` (lines 549-645).  The three `base_norm` evaluations
(for Control, A, B, in the dict-literal order) are the only fallible steps;
a failure in any of them propagates as the raised exception does in the
source.  All other entries are total. -/
def compute_metrics (r : Registry) (axis_value : ℚ) : Except Unit Metrics :=
  match base_norm (chosenScale r).1 axis_value (heightOf r .Control),
        base_norm (chosenScale r).1 axis_value (heightOf r .A),
        base_norm (chosenScale r).1 axis_value (heightOf r .B) with
  | .ok bnC, .ok bnA, .ok bnB => .ok (metricsOf r axis_value bnC bnA bnB)
  | _, _, _ => .error ()

instance {ε α : Type} [DecidableEq ε] [DecidableEq α] : DecidableEq (Except ε α) :=
  fun x y =>
    match x, y with
    | .error u, .error w =>
        if h : u = w then isTrue (by rw [h]) else isFalse (fun hh => h (by injection hh))
    | .ok u, .ok w =>
        if h : u = w then isTrue (by rw [h]) else isFalse (fun hh => h (by injection hh))
    | .error _, .ok _ => isFalse (fun hh => Except.noConfusion hh)
    | .ok _, .error _ => isFalse (fun hh => Except.noConfusion hh)

/-- The metrics record of a successful computation, for stating concrete
evaluations (`default` is never reached when the computation succeeds). -/
def mOf (r : Registry) (axis_value : ℚ) : Metrics :=
  (compute_metrics r axis_value).toOption.getD default

/-- Specification shape of a directional percentage `X_as_pct_of_Y`:
defined exactly when both heights are defined and the divisor height is
nonzero, in which case it is `100 * hX / hY`. -/
def pctSpec (hX hY out : Option ℚ) : Prop :=
  (out ≠ none ↔ hX ≠ none ∧ ∃ y, hY = some y ∧ y ≠ 0) ∧
  ∀ x y, hX = some x → hY = some y → y ≠ 0 → out = some (100 * x / y)

/-- Specification shape of a directional delta `delta_X_vs_Y_pct`:
defined exactly when both heights are defined and the divisor height is
nonzero, in which case it is `100 * (hX - hY) / hY`. -/
def deltaSpec (hX hY out : Option ℚ) : Prop :=
  (out ≠ none ↔ hX ≠ none ∧ ∃ y, hY = some y ∧ y ≠ 0) ∧
  ∀ x y, hX = some x → hY = some y → y ≠ 0 → out = some (100 * (x - y) / y)

/- Concrete registries used by the witness and counterexample theorems. -/

def regC1 : Registry :=
  { baseline := some (0, 500), control := some (0, 500), a := none,
    b := none, axis := none }

def regC2 : Registry :=
  { baseline := some (0, 500), control := some (0, 400), a := some (0, 300),
    b := none, axis := none }

def regC3 : Registry :=
  { baseline := some (0, 5), control := none, a := some (0, 1),
    b := none, axis := some (0, 3) }

def regC3b : Registry :=
  { baseline := some (0, 5), control := none, a := some (0, 1),
    b := none, axis := none }

def regC4 : Registry :=
  { baseline := some (10, 500), control := some (10, 400), a := some (10, 300),
    b := some (10, 350), axis := none }

def regC5 : Registry :=
  { baseline := some (0, 0), control := none, a := some (0, 1),
    b := some (0, 2), axis := none }

def regC5w : Registry :=
  { baseline := some (1, 500), control := none, a := some (1, 300),
    b := some (1, 350), axis := none }

def regC6 : Registry :=
  { baseline := some (2, 500), control := some (2, 450), a := some (2, 300),
    b := some (2, 350), axis := none }

def regC8 : Registry :=
  { baseline := some (0, 5), control := some (0, 3), a := some (0, 1),
    b := none, axis := none }

def regC9 : Registry :=
  { baseline := some (7, 7), control := none, a := none,
    b := none, axis := none }

def regC10 : Registry :=
  { baseline := none, control := none, a := none,
    b := none, axis := some (0, 7) }

/-- The result mapping `compute_metrics` produces on a fully cleared
registry: every height and percentage undefined, the divisor 1 with the
auto flag set, and the calibration value passed through. -/
def clearedMetrics (v : ℚ) : Metrics :=
  { height_Baseline_y := none, height_Control_px := none,
    height_A_px := none, height_B_px := none,
    height_Axis_px := some 1, axis_auto_used := true,
    A_as_pct_of_B := none, B_as_pct_of_A := none,
    delta_A_vs_B_pct := none, delta_B_vs_A_pct := none,
    A_as_pct_of_Control := none, Control_as_pct_of_A := none,
    delta_A_vs_Control_pct := none, delta_Control_vs_A_pct := none,
    B_as_pct_of_Control := none, Control_as_pct_of_B := none,
    delta_B_vs_Control_pct := none, delta_Control_vs_B_pct := none,
    BaseNorm_Control := none, BaseNorm_A := none, BaseNorm_B := none,
    Axis_Value := some v }

/-- The same registry contents as `regC8`, built by a different call
history (clear, then three placements). -/
def regC8x : Registry :=
  (((clear_marks regC8).setP .Baseline (0, 5)).setP .Control (0, 3)).setP .A (0, 1)

/- ## Shared lemmas about the embedded definitions -/

theorem heightOf_ne_none_iff (r : Registry) (p : PName) :
    heightOf r p ≠ none ↔ r.baseline ≠ none ∧ r.get p ≠ none := by
  cases hb : r.baseline <;> cases hg : r.get p <;> simp [heightOf, hb, hg]

theorem heightOf_eq {r : Registry} {p : PName} {bl pt : Int × Int}
    (hb : r.baseline = some bl) (hp : r.get p = some pt) :
    heightOf r p = some ((bl.2 - pt.2 : Int) : ℚ) := by
  unfold heightOf; rw [hb, hp]

theorem axisSpan_of_axis_none {r : Registry} (h : r.axis = none) :
    axisSpan r = none := by
  cases hb : r.baseline <;> simp [axisSpan, hb, h]

theorem axisSpan_of_eq_y {r : Registry} {bl ax : Int × Int}
    (hb : r.baseline = some bl) (ha : r.axis = some ax) (he : ax.2 = bl.2) :
    axisSpan r = none := by
  have hz : ((bl.2 - ax.2 : Int) : ℚ) = 0 := by
    rw [he]; simp
  unfold axisSpan
  rw [hb, ha]
  change (if ((bl.2 - ax.2 : Int) : ℚ) = 0 then (none : Option ℚ)
    else some ((bl.2 - ax.2 : Int) : ℚ)) = none
  rw [if_pos hz]

theorem axisSpan_of_ne_y {r : Registry} {bl ax : Int × Int}
    (hb : r.baseline = some bl) (ha : r.axis = some ax) (hne : ax.2 ≠ bl.2) :
    axisSpan r = some ((bl.2 - ax.2 : Int) : ℚ) := by
  have hz : ((bl.2 - ax.2 : Int) : ℚ) ≠ 0 := by
    exact_mod_cast sub_ne_zero.mpr fun hh => hne hh.symm
  unfold axisSpan
  rw [hb, ha]
  change (if ((bl.2 - ax.2 : Int) : ℚ) = 0 then (none : Option ℚ)
    else some ((bl.2 - ax.2 : Int) : ℚ)) = some ((bl.2 - ax.2 : Int) : ℚ)
  rw [if_neg hz]

theorem chosenScale_of_span {r : Registry} {s : ℚ} (h : axisSpan r = some s) :
    chosenScale r = (s, false) := by
  unfold chosenScale; rw [h]

theorem chosenScale_of_none {r : Registry} (h : axisSpan r = none) :
    chosenScale r = (autoScaleValue r, true) := by
  unfold chosenScale; rw [h]

theorem foldl_max_mem (v : ℚ) (l : List ℚ) : l.foldl max v ∈ v :: l := by
  induction l generalizing v with
  | nil => simp
  | cons x xs ih =>
    simp only [List.foldl_cons]
    rcases max_choice v x with h | h <;> rw [h]
    · rcases List.mem_cons.mp (ih v) with h1 | h1 <;> simp [h1]
    · rcases List.mem_cons.mp (ih x) with h1 | h1 <;> simp [h1]

theorem le_foldl_max (v : ℚ) (l : List ℚ) : ∀ x ∈ v :: l, x ≤ l.foldl max v := by
  induction l generalizing v with
  | nil =>
    intro x hx
    rcases List.mem_cons.mp hx with h | h
    · simp [h]
    · simp at h
  | cons y ys ih =>
    intro x hx
    simp only [List.foldl_cons]
    rcases List.mem_cons.mp hx with h | h
    · rw [h]
      exact le_trans (le_max_left v y) (ih (max v y) (max v y) (List.mem_cons_self _ _))
    · rcases List.mem_cons.mp h with h1 | h1
      · rw [h1]
        exact le_trans (le_max_right v y) (ih (max v y) (max v y) (List.mem_cons_self _ _))
      · exact ih (max v y) x (List.mem_cons.mpr (Or.inr h1))

theorem autoScaleValue_spec (r : Registry) :
    (autoCandidates r = [] ∧ autoScaleValue r = 1) ∨
    (autoScaleValue r ∈ (autoCandidates r).map (fun x => |x|) ∧
      ∀ x ∈ (autoCandidates r).map (fun x => |x|), x ≤ autoScaleValue r) := by
  unfold autoScaleValue
  cases hcand : (autoCandidates r).map (fun x => |x|) with
  | nil =>
    left
    exact ⟨List.map_eq_nil_iff.mp hcand, rfl⟩
  | cons v vs =>
    right
    exact ⟨foldl_max_mem v vs, le_foldl_max v vs⟩

theorem pct_spec_holds (hX hY : Option ℚ) : pctSpec hX hY (pct hX hY) := by
  constructor
  · cases hX with
    | none => simp [pct]
    | some x =>
      cases hY with
      | none => simp [pct]
      | some y => by_cases hy : y = 0 <;> simp [pct, hy]
  · intro x y hx hy hy0
    subst hx; subst hy
    simp [pct, hy0]

theorem delta_spec_holds (hX hY : Option ℚ) :
    deltaSpec hX hY (pct (diffOpt hX hY) hY) := by
  constructor
  · cases hX with
    | none => simp [pct, diffOpt]
    | some x =>
      cases hY with
      | none => simp [pct, diffOpt]
      | some y => by_cases hy : y = 0 <;> simp [pct, diffOpt, hy]
  · intro x y hx hy hy0
    subst hx; subst hy
    simp [pct, diffOpt, hy0]

theorem compute_ok_exists {r : Registry} {v : ℚ} {m : Metrics}
    (h : compute_metrics r v = .ok m) :
    ∃ bnC bnA bnB, m = metricsOf r v bnC bnA bnB := by
  unfold compute_metrics at h
  split at h
  · injection h with h
    exact ⟨_, _, _, h.symm⟩
  · exact Except.noConfusion h

theorem base_norm_ok {s : ℚ} (hs : s ≠ 0) (v : ℚ) (ho : Option ℚ) :
    base_norm s v ho = .ok (ho.map (fun h0 => h0 / s * v)) := by
  cases ho <;> simp [base_norm, hs]

theorem compute_ok_of_scale {r : Registry} {v : ℚ}
    (hs : (chosenScale r).1 ≠ 0) :
    compute_metrics r v = .ok (metricsOf r v
      ((heightOf r .Control).map (fun h0 => h0 / (chosenScale r).1 * v))
      ((heightOf r .A).map (fun h0 => h0 / (chosenScale r).1 * v))
      ((heightOf r .B).map (fun h0 => h0 / (chosenScale r).1 * v))) := by
  unfold compute_metrics
  rw [base_norm_ok hs, base_norm_ok hs, base_norm_ok hs]

theorem compute_eq_ok_mOf {r : Registry} {v : ℚ}
    (hs : (chosenScale r).1 ≠ 0) :
    compute_metrics r v = .ok (mOf r v) := by
  have h := compute_ok_of_scale (v := v) hs
  unfold mOf
  rw [h]
  rfl

/- ## Claim theorems -/

/-- C1 (code bug evaluation): the scale divisor chosen by `compute_metrics`
CAN be zero — when every defined height among {Control, A, B} is zero and no
Axis span exists, the fallback `max(abs(height))` is `0` — and the division
by that zero divisor in `base_norm` is a raised exception, not an undefined
value: with Baseline at y=500 and Control at y=500 (A, B, Axis unplaced),
`compute_metrics` fails instead of returning a mapping. -/
theorem c1_zero_divisor_raises :
    (chosenScale regC1).1 = 0 ∧ compute_metrics regC1 100 = .error () :=
  ⟨by decide, by decide⟩

/-- C2: whenever `compute_metrics` returns a result, the height of each of
A, B, Control is defined iff both Baseline and that point are placed, and it
equals `Baseline.y - point.y` exactly, so a point above Baseline (smaller y)
has positive height. -/
theorem c2_heights (r : Registry) (v : ℚ) (m : Metrics)
    (h : compute_metrics r v = .ok m) :
    ((m.height_A_px ≠ none ↔ r.baseline ≠ none ∧ r.a ≠ none) ∧
      ∀ bl pt, r.baseline = some bl → r.a = some pt →
        m.height_A_px = some ((bl.2 - pt.2 : Int) : ℚ) ∧
          (pt.2 < bl.2 → (0 : ℚ) < ((bl.2 - pt.2 : Int) : ℚ))) ∧
    ((m.height_B_px ≠ none ↔ r.baseline ≠ none ∧ r.b ≠ none) ∧
      ∀ bl pt, r.baseline = some bl → r.b = some pt →
        m.height_B_px = some ((bl.2 - pt.2 : Int) : ℚ) ∧
          (pt.2 < bl.2 → (0 : ℚ) < ((bl.2 - pt.2 : Int) : ℚ))) ∧
    ((m.height_Control_px ≠ none ↔ r.baseline ≠ none ∧ r.control ≠ none) ∧
      ∀ bl pt, r.baseline = some bl → r.control = some pt →
        m.height_Control_px = some ((bl.2 - pt.2 : Int) : ℚ) ∧
          (pt.2 < bl.2 → (0 : ℚ) < ((bl.2 - pt.2 : Int) : ℚ))) := by
  obtain ⟨bnC, bnA, bnB, rfl⟩ := compute_ok_exists h
  refine ⟨⟨?_, ?_⟩, ⟨?_, ?_⟩, ⟨?_, ?_⟩⟩
  · simpa [metricsOf, Registry.get] using heightOf_ne_none_iff r .A
  · intro bl pt hb hp
    refine ⟨by simp [metricsOf, heightOf_eq hb (show r.get .A = some pt from hp)], ?_⟩
    intro hlt
    have hpos : (0 : Int) < bl.2 - pt.2 := by omega
    exact_mod_cast hpos
  · simpa [metricsOf, Registry.get] using heightOf_ne_none_iff r .B
  · intro bl pt hb hp
    refine ⟨by simp [metricsOf, heightOf_eq hb (show r.get .B = some pt from hp)], ?_⟩
    intro hlt
    have hpos : (0 : Int) < bl.2 - pt.2 := by omega
    exact_mod_cast hpos
  · simpa [metricsOf, Registry.get] using heightOf_ne_none_iff r .Control
  · intro bl pt hb hp
    refine ⟨by simp [metricsOf, heightOf_eq hb (show r.get .Control = some pt from hp)], ?_⟩
    intro hlt
    have hpos : (0 : Int) < bl.2 - pt.2 := by omega
    exact_mod_cast hpos

/-- Witness for C2: Baseline (0,500), Control (0,400), A (0,300), B unplaced:
height of A is 500-300 = 200 (positive, A above Baseline) and height of B is
undefined. -/
theorem c2_heights_witness :
    compute_metrics regC2 100 = .ok (mOf regC2 100) ∧
    (mOf regC2 100).height_A_px = some 200 ∧ (0 : ℚ) < 200 ∧
    (mOf regC2 100).height_B_px = none := by
  have h : compute_metrics regC2 100 = .ok (mOf regC2 100) :=
    compute_eq_ok_mOf (by decide)
  have hc := c2_heights regC2 100 (mOf regC2 100) h
  refine ⟨h, ?_, by norm_num, ?_⟩
  · have := (hc.1.2 (0, 500) (0, 300) rfl rfl).1
    simpa using this
  · have hiff := hc.2.1.1
    have : ¬(mOf regC2 100).height_B_px ≠ none := fun hh => (hiff.mp hh).2 rfl
    exact not_not.mp this

/-- C3: whenever `compute_metrics` returns a result: if Axis is placed with
`Axis.y ≠ Baseline.y` (Baseline placed), the auto flag is false and the
divisor is exactly `Baseline.y - Axis.y`; if Axis is unplaced, or placed
with `Axis.y = Baseline.y`, the auto flag is true and the divisor is the
maximum of the absolute defined heights among {A, B, Control}, or 1 when no
height is defined. -/
theorem c3_scale_choice (r : Registry) (v : ℚ) (m : Metrics)
    (h : compute_metrics r v = .ok m) :
    (∀ bl ax, r.baseline = some bl → r.axis = some ax → ax.2 ≠ bl.2 →
      m.axis_auto_used = false ∧
        m.height_Axis_px = some ((bl.2 - ax.2 : Int) : ℚ)) ∧
    ((r.axis = none ∨ ∃ bl ax, r.baseline = some bl ∧ r.axis = some ax ∧ ax.2 = bl.2) →
      m.axis_auto_used = true ∧
      ((autoCandidates r = [] ∧ m.height_Axis_px = some 1) ∨
        ∃ s, m.height_Axis_px = some s ∧
          s ∈ (autoCandidates r).map (fun x => |x|) ∧
          ∀ x ∈ (autoCandidates r).map (fun x => |x|), x ≤ s)) := by
  obtain ⟨bnC, bnA, bnB, rfl⟩ := compute_ok_exists h
  constructor
  · intro bl ax hb ha hne
    have hch := chosenScale_of_span (axisSpan_of_ne_y hb ha hne)
    constructor <;> simp [metricsOf, hch]
  · intro hcase
    have hspan : axisSpan r = none := by
      rcases hcase with h0 | ⟨bl, ax, hb, ha, he⟩
      · exact axisSpan_of_axis_none h0
      · exact axisSpan_of_eq_y hb ha he
    have hch := chosenScale_of_none hspan
    refine ⟨by simp [metricsOf, hch], ?_⟩
    rcases autoScaleValue_spec r with ⟨hnil, hone⟩ | ⟨hmem, hub⟩
    · exact Or.inl ⟨hnil, by simp [metricsOf, hch, hone]⟩
    · exact Or.inr ⟨autoScaleValue r, by simp [metricsOf, hch], hmem, hub⟩

/-- Witness for C3: with Baseline (0,5) and Axis (0,3) the span branch gives
auto = false and divisor 2; with Axis removed (and A placed at (0,1), height
4) the fallback gives auto = true. -/
theorem c3_scale_choice_witness :
    compute_metrics regC3 100 = .ok (mOf regC3 100) ∧
    (mOf regC3 100).axis_auto_used = false ∧
    (mOf regC3 100).height_Axis_px = some 2 ∧
    compute_metrics regC3b 100 = .ok (mOf regC3b 100) ∧
    (mOf regC3b 100).axis_auto_used = true := by
  have h1 : compute_metrics regC3 100 = .ok (mOf regC3 100) :=
    compute_eq_ok_mOf (by decide)
  have h2 : compute_metrics regC3b 100 = .ok (mOf regC3b 100) :=
    compute_eq_ok_mOf (by decide)
  have hc1 := (c3_scale_choice regC3 100 (mOf regC3 100) h1).1 (0, 5) (0, 3)
    rfl rfl (by decide)
  have hc2 := (c3_scale_choice regC3b 100 (mOf regC3b 100) h2).2 (Or.inl rfl)
  refine ⟨h1, hc1.1, ?_, h2, hc2.1⟩
  have := hc1.2
  simpa using this

theorem delta_sign (x y : ℚ) (hy : 0 < y) :
    ∃ d, pct (diffOpt (some x) (some y)) (some y) = some d ∧ (0 < d ↔ y < x) := by
  have hy0 : y ≠ 0 := ne_of_gt hy
  refine ⟨100 * (x - y) / y, by simp [pct, diffOpt, hy0], ?_⟩
  rw [div_pos_iff]
  constructor
  · rintro (⟨h1, _⟩ | ⟨_, h2⟩)
    · linarith
    · linarith
  · intro hxy
    exact Or.inl ⟨by linarith, hy⟩

theorem delta_sign_opt {hX hY : Option ℚ} {x y : ℚ} (hx : hX = some x)
    (hy : hY = some y) (hypos : 0 < y) :
    ∃ d, pct (diffOpt hX hY) hY = some d ∧ (0 < d ↔ y < x) := by
  subst hx; subst hy
  exact delta_sign x y hypos

theorem pct_mul_swap {x y : ℚ} (hx : x ≠ 0) (hy : y ≠ 0) :
    (100 * x / y) * (100 * y / x) = 100 * 100 := by
  field_simp
  ring

theorem pct_swap_ne {x y : ℚ} (hx : x ≠ 0) (hy : y ≠ 0) (h1 : x ≠ y)
    (h2 : x ≠ -y) : 100 * x / y ≠ 100 * y / x := by
  intro heq
  have hsq : x * x = y * y := by
    field_simp at heq
    linarith
  rcases mul_self_eq_mul_self_iff.mp hsq with h | h
  · exact h1 h
  · exact h2 h

/-- C4: whenever `compute_metrics` returns a result, each of the twelve
directional percentage fields satisfies its specification: it is defined iff
both heights are defined and the divisor height is nonzero (so a zero or
missing divisor yields an undefined value, never a failure — and in `ℚ`
there is no infinity or NaN to return), and when defined it equals
`100 * hX / hY` (respectively `100 * (hX - hY) / hY`). -/
theorem c4_pairwise (r : Registry) (v : ℚ) (m : Metrics)
    (h : compute_metrics r v = .ok m) :
    pctSpec (heightOf r .A) (heightOf r .B) m.A_as_pct_of_B ∧
    pctSpec (heightOf r .B) (heightOf r .A) m.B_as_pct_of_A ∧
    deltaSpec (heightOf r .A) (heightOf r .B) m.delta_A_vs_B_pct ∧
    deltaSpec (heightOf r .B) (heightOf r .A) m.delta_B_vs_A_pct ∧
    pctSpec (heightOf r .A) (heightOf r .Control) m.A_as_pct_of_Control ∧
    pctSpec (heightOf r .Control) (heightOf r .A) m.Control_as_pct_of_A ∧
    deltaSpec (heightOf r .A) (heightOf r .Control) m.delta_A_vs_Control_pct ∧
    deltaSpec (heightOf r .Control) (heightOf r .A) m.delta_Control_vs_A_pct ∧
    pctSpec (heightOf r .B) (heightOf r .Control) m.B_as_pct_of_Control ∧
    pctSpec (heightOf r .Control) (heightOf r .B) m.Control_as_pct_of_B ∧
    deltaSpec (heightOf r .B) (heightOf r .Control) m.delta_B_vs_Control_pct ∧
    deltaSpec (heightOf r .Control) (heightOf r .B) m.delta_Control_vs_B_pct := by
  obtain ⟨bnC, bnA, bnB, rfl⟩ := compute_ok_exists h
  exact ⟨pct_spec_holds _ _, pct_spec_holds _ _, delta_spec_holds _ _,
    delta_spec_holds _ _, pct_spec_holds _ _, pct_spec_holds _ _,
    delta_spec_holds _ _, delta_spec_holds _ _, pct_spec_holds _ _,
    pct_spec_holds _ _, delta_spec_holds _ _, delta_spec_holds _ _⟩

/-- Witness for C4: Baseline y=500, Control y=400, A y=300, B y=350 gives
heights 200 and 150, so `A_as_pct_of_B = 100*200/150` and
`delta_A_vs_B_pct = 100*(200-150)/150`. -/
theorem c4_pairwise_witness :
    compute_metrics regC4 100 = .ok (mOf regC4 100) ∧
    (mOf regC4 100).A_as_pct_of_B = some (100 * 200 / 150) ∧
    (mOf regC4 100).delta_A_vs_B_pct = some (100 * (200 - 150) / 150) := by
  have h : compute_metrics regC4 100 = .ok (mOf regC4 100) :=
    compute_eq_ok_mOf (by decide)
  have hc := c4_pairwise regC4 100 (mOf regC4 100) h
  have hA : heightOf regC4 .A = some 200 := by decide
  have hB : heightOf regC4 .B = some 150 := by decide
  exact ⟨h, hc.1.2 200 150 hA hB (by norm_num),
    hc.2.2.1.2 200 150 hA hB (by norm_num)⟩

/-- C5 counterexample: with Baseline y=0, A y=1, B y=2 the heights are
hA = -1 and hB = -2, so A is the higher value (hB < hA), yet
`delta_A_vs_B_pct = 100*((-1)-(-2))/(-2) = -50` is NOT positive: positivity
of the delta does not coincide with X being the larger value when the
divisor height is negative. -/
theorem c5_sign_counterexample :
    compute_metrics regC5 100 = .ok (mOf regC5 100) ∧
    (mOf regC5 100).height_A_px = some (-1) ∧
    (mOf regC5 100).height_B_px = some (-2) ∧
    ((-2 : ℚ) < -1) ∧
    (mOf regC5 100).delta_A_vs_B_pct = some (-50) ∧
    ¬(0 : ℚ) < -50 := by
  have h : compute_metrics regC5 100 = .ok (mOf regC5 100) :=
    compute_eq_ok_mOf (by decide)
  obtain ⟨bnC, bnA, bnB, hm⟩ := compute_ok_exists h
  have hA : heightOf regC5 .A = some (-1) := by decide
  have hB : heightOf regC5 .B = some (-2) := by decide
  have hd := (delta_spec_holds (heightOf regC5 .A) (heightOf regC5 .B)).2
    (-1) (-2) hA hB (by norm_num)
  have hval : (100 : ℚ) * ((-1) - (-2)) / (-2) = -50 := by norm_num
  refine ⟨h, ?_, ?_, by norm_num, ?_, by norm_num⟩
  · rw [hm]; exact hA
  · rw [hm]; exact hB
  · rw [hm]
    show pct (diffOpt (heightOf regC5 .A) (heightOf regC5 .B))
      (heightOf regC5 .B) = some (-50)
    rw [hd, hval]

/-- C5 amended: for defined heights with a POSITIVE divisor height,
`delta_X_vs_Y_pct` is positive iff X's height is larger; (the
counterexample shows the sign is reversed for a negative divisor height). -/
theorem c5_delta_sign_amended (r : Registry) (v : ℚ) (m : Metrics)
    (h : compute_metrics r v = .ok m) :
    (∀ x y, m.height_A_px = some x → m.height_B_px = some y → 0 < y →
      ∃ d, m.delta_A_vs_B_pct = some d ∧ (0 < d ↔ y < x)) ∧
    (∀ x y, m.height_B_px = some x → m.height_A_px = some y → 0 < y →
      ∃ d, m.delta_B_vs_A_pct = some d ∧ (0 < d ↔ y < x)) ∧
    (∀ x y, m.height_A_px = some x → m.height_Control_px = some y → 0 < y →
      ∃ d, m.delta_A_vs_Control_pct = some d ∧ (0 < d ↔ y < x)) ∧
    (∀ x y, m.height_Control_px = some x → m.height_A_px = some y → 0 < y →
      ∃ d, m.delta_Control_vs_A_pct = some d ∧ (0 < d ↔ y < x)) ∧
    (∀ x y, m.height_B_px = some x → m.height_Control_px = some y → 0 < y →
      ∃ d, m.delta_B_vs_Control_pct = some d ∧ (0 < d ↔ y < x)) ∧
    (∀ x y, m.height_Control_px = some x → m.height_B_px = some y → 0 < y →
      ∃ d, m.delta_Control_vs_B_pct = some d ∧ (0 < d ↔ y < x)) := by
  obtain ⟨bnC, bnA, bnB, rfl⟩ := compute_ok_exists h
  exact ⟨fun x y hx hy hp => delta_sign_opt hx hy hp,
    fun x y hx hy hp => delta_sign_opt hx hy hp,
    fun x y hx hy hp => delta_sign_opt hx hy hp,
    fun x y hx hy hp => delta_sign_opt hx hy hp,
    fun x y hx hy hp => delta_sign_opt hx hy hp,
    fun x y hx hy hp => delta_sign_opt hx hy hp⟩

/-- Witness for the amended C5: heights 200 and 150 (positive divisor), the
delta is 100*(200-150)/150 and is positive, matching 150 < 200. -/
theorem c5_delta_sign_amended_witness :
    compute_metrics regC5w 100 = .ok (mOf regC5w 100) ∧
    (mOf regC5w 100).delta_A_vs_B_pct = some (100 * (200 - 150) / 150) ∧
    (0 : ℚ) < 100 * (200 - 150) / 150 := by
  have h : compute_metrics regC5w 100 = .ok (mOf regC5w 100) :=
    compute_eq_ok_mOf (by decide)
  obtain ⟨d, hd, hiff⟩ := (c5_delta_sign_amended regC5w 100 (mOf regC5w 100) h).1
    200 150 (by decide) (by decide) (by norm_num)
  have hv := (delta_spec_holds (heightOf regC5w .A) (heightOf regC5w .B)).2
    200 150 (by decide) (by decide) (by norm_num)
  have hfield : (mOf regC5w 100).delta_A_vs_B_pct = some (100 * (200 - 150) / 150) := by
    obtain ⟨bnC, bnA, bnB, hm⟩ := compute_ok_exists h
    rw [hm]; exact hv
  have hdeq : d = 100 * (200 - 150) / 150 :=
    Option.some.inj (hd.symm.trans hfield)
  exact ⟨h, hfield, hdeq ▸ hiff.mpr (by norm_num)⟩

/-- C6: whenever `compute_metrics` returns a result, for each pair of
defined nonzero heights the two directional percentages are exact
reciprocal-style values — their product is `100 * 100` — and they are not
equal unless the heights coincide up to sign (non-commutativity). -/
theorem c6_swap (r : Registry) (v : ℚ) (m : Metrics)
    (h : compute_metrics r v = .ok m) :
    (∀ x y, m.height_A_px = some x → m.height_B_px = some y → x ≠ 0 → y ≠ 0 →
      m.A_as_pct_of_B = some (100 * x / y) ∧
      m.B_as_pct_of_A = some (100 * y / x) ∧
      (100 * x / y) * (100 * y / x) = 100 * 100 ∧
      (x ≠ y → x ≠ -y → 100 * x / y ≠ 100 * y / x)) ∧
    (∀ x y, m.height_A_px = some x → m.height_Control_px = some y → x ≠ 0 → y ≠ 0 →
      m.A_as_pct_of_Control = some (100 * x / y) ∧
      m.Control_as_pct_of_A = some (100 * y / x) ∧
      (100 * x / y) * (100 * y / x) = 100 * 100 ∧
      (x ≠ y → x ≠ -y → 100 * x / y ≠ 100 * y / x)) ∧
    (∀ x y, m.height_B_px = some x → m.height_Control_px = some y → x ≠ 0 → y ≠ 0 →
      m.B_as_pct_of_Control = some (100 * x / y) ∧
      m.Control_as_pct_of_B = some (100 * y / x) ∧
      (100 * x / y) * (100 * y / x) = 100 * 100 ∧
      (x ≠ y → x ≠ -y → 100 * x / y ≠ 100 * y / x)) := by
  obtain ⟨bnC, bnA, bnB, rfl⟩ := compute_ok_exists h
  refine ⟨?_, ?_, ?_⟩ <;> intro x y hx hy hx0 hy0 <;>
    exact ⟨(pct_spec_holds _ _).2 x y hx hy hy0,
      (pct_spec_holds _ _).2 y x hy hx hx0,
      pct_mul_swap hx0 hy0,
      fun h1 h2 => pct_swap_ne hx0 hy0 h1 h2⟩

/-- Witness for C6: heights 200 and 150: the products of the two directions
is 10000 and the two directional percentages differ. -/
theorem c6_swap_witness :
    compute_metrics regC6 100 = .ok (mOf regC6 100) ∧
    (mOf regC6 100).A_as_pct_of_B = some (100 * 200 / 150) ∧
    (mOf regC6 100).B_as_pct_of_A = some (100 * 150 / 200) ∧
    (100 * 200 / 150 : ℚ) * (100 * 150 / 200) = 100 * 100 ∧
    (100 * 200 / 150 : ℚ) ≠ 100 * 150 / 200 := by
  have h : compute_metrics regC6 100 = .ok (mOf regC6 100) :=
    compute_eq_ok_mOf (by decide)
  have hc := (c6_swap regC6 100 (mOf regC6 100) h).1 200 150
    (by decide) (by decide) (by norm_num) (by norm_num)
  exact ⟨h, hc.1, hc.2.1, hc.2.2.1, hc.2.2.2 (by norm_num) (by norm_num)⟩

/-- C7: computing on a cleared registry returns the fully undefined
mapping: every height and every percentage is `none`, the (conceptual) axis
span is undefined, the auto flag is set, and the divisor stored under the
axis-span key is the fallback constant 1. -/
theorem c7_clear_then_compute (r : Registry) (v : ℚ) :
    axisSpan (clear_marks r) = none ∧
    compute_metrics (clear_marks r) v = .ok (clearedMetrics v) :=
  ⟨rfl, rfl⟩

/-- C8: `compute_metrics` is a pure function of the registry contents and
the calibration value alone — equal inputs give identical results, with no
dependence on call history or ordering. -/
theorem c8_deterministic (r1 r2 : Registry) (v1 v2 : ℚ)
    (hr : r1 = r2) (hv : v1 = v2) :
    compute_metrics r1 v1 = compute_metrics r2 v2 := by
  rw [hr, hv]

/-- Witness for C8: a registry built by clear-then-three-placements and a
directly given registry with the same contents compute identical results. -/
theorem c8_deterministic_witness :
    compute_metrics regC8x 100 = compute_metrics regC8 100 :=
  c8_deterministic regC8x regC8 100 100 (by decide) rfl

/-- C9: the registry `set` operation rejects every name outside the fixed
five with `InvalidNameError`, producing no updated registry; a valid name
records the coordinate for exactly that point and leaves every other point
unchanged. -/
theorem c9_registry_set (r : Registry) (name : String) (xy : Int × Int) :
    (parsePName name = none →
      Registry.set r name xy = .error RegError.invalidName) ∧
    (∀ p, parsePName name = some p →
      Registry.set r name xy = .ok (Registry.setP r p xy) ∧
      (Registry.setP r p xy).get p = some xy ∧
      ∀ q, q ≠ p → (Registry.setP r p xy).get q = r.get q) := by
  constructor
  · intro hn
    simp [Registry.set, hn]
  · intro p hp
    refine ⟨by simp [Registry.set, hp], ?_, ?_⟩
    · cases p <;> simp [Registry.setP, Registry.get]
    · intro q hq
      cases p <;> cases q <;>
        first
        | exact absurd rfl hq
        | simp [Registry.setP, Registry.get]

/-- Witness for C9: the name "Foo" is rejected with the registry untouched;
the name "A" updates exactly the A point, leaving Baseline as it was. -/
theorem c9_registry_set_witness :
    Registry.set regC9 "Foo" (1, 2) = .error RegError.invalidName ∧
    Registry.set regC9 "A" (1, 2) = .ok (Registry.setP regC9 .A (1, 2)) ∧
    (Registry.setP regC9 .A (1, 2)).get .A = some (1, 2) ∧
    (Registry.setP regC9 .A (1, 2)).get .Baseline = regC9.get .Baseline := by
  have h1 := (c9_registry_set regC9 "Foo" (1, 2)).1 (by decide)
  have h2 := (c9_registry_set regC9 "A" (1, 2)).2 .A (by decide)
  exact ⟨h1, h2.1, h2.2.1, h2.2.2 .Baseline (by decide)⟩

/-- C10: whenever `compute_metrics` returns a result, the axis-span key
holds the chosen (post-fallback) divisor — a defined value, never `none`,
even when Baseline or Axis is unplaced. -/
theorem c10_axis_px_defined (r : Registry) (v : ℚ) (m : Metrics)
    (h : compute_metrics r v = .ok m) :
    m.height_Axis_px = some (chosenScale r).1 := by
  obtain ⟨bnC, bnA, bnB, rfl⟩ := compute_ok_exists h
  rfl

/-- Witness for C10: Axis placed but Baseline unplaced — the axis span is
undefined, yet the output key holds the fallback divisor 1. -/
theorem c10_axis_px_defined_witness :
    compute_metrics regC10 100 = .ok (mOf regC10 100) ∧
    (mOf regC10 100).height_Axis_px = some (chosenScale regC10).1 ∧
    (chosenScale regC10).1 = 1 := by
  have h : compute_metrics regC10 100 = .ok (mOf regC10 100) :=
    compute_eq_ok_mOf (by decide)
  exact ⟨h, c10_axis_px_defined regC10 100 (mOf regC10 100) h, by decide⟩
